import Mathlib

/-
  Shallow embedding of src/business_chatbot.py (X Analyzer financial chatbot).

  Modelling conventions:
  * Python str values are modelled by Lean String (with List Char views where
    index arithmetic is needed); Python ints by Nat/Int; Python floats by the
    rationals they denote.
  * Values produced by json.loads are modelled by the inductive type JVal.
  * Streamlit display calls (st.markdown, st.subheader, st.plotly_chart,
    st.error) are modelled as appending a display Artifact to the app state;
    st.session_state.messages is the messages field of the app state.
  * Raised-and-caught Python exceptions are modelled with Except Unit.
-/

namespace BusinessChatbot

/-- Python values decodable from JSON, as produced by json.loads. -/
inductive JVal where
  | jnull
  | jbool (b : Bool)
  | jnum (q : ℚ)
  | jstr (s : String)
  | jarr (elems : List JVal)
  | jobj (fields : List (String × JVal))

/-- The character with a given code point; used for characters that are
awkward to write literally. -/
def chr (n : Nat) : Char := Char.ofNat n

def lbraceC : Char := chr 123
def rbraceC : Char := chr 125
def quoteC : Char := chr 34
def backslashC : Char := chr 92

/-- JSON whitespace characters (space, tab, line feed, carriage return). -/
def jsonWs (c : Char) : Bool :=
  c = chr 32 || c = chr 9 || c = chr 10 || c = chr 13

/-- Drop leading JSON whitespace. -/
def skipWs : List Char → List Char
  | [] => []
  | c :: cs => if jsonWs c then skipWs cs else c :: cs

/-- Numeric value of a digit run. -/
def digitsVal (ds : List Char) : Nat :=
  ds.foldl (fun a c => a * 10 + (c.toNat - 48)) 0

/-- Hexadecimal digit test. -/
def isHexDigit (c : Char) : Bool :=
  c.isDigit || (97 ≤ c.toNat && c.toNat ≤ 102) || (65 ≤ c.toNat && c.toNat ≤ 70)

/-- Value of one hexadecimal digit. -/
def hexVal (c : Char) : Nat :=
  if c.isDigit then c.toNat - 48
  else if 97 ≤ c.toNat then c.toNat - 87
  else c.toNat - 55

/-- Body of a JSON string literal after the opening quote: returns the decoded
characters and the remaining input after the closing quote.  Escapes are
decoded as json.loads does; surrogate-pair recombination for astral characters
is not modelled (no claim depends on it); unescaped control characters are
rejected as in strict json.loads. -/
def parseStringBody : List Char → Option (List Char × List Char)
  | [] => none
  | c :: cs =>
    if c = quoteC then some ([], cs)
    else if c = backslashC then
      match cs with
      | [] => none
      | e :: cs2 =>
        if e = quoteC ∨ e = backslashC ∨ e = chr 47 then
          (parseStringBody cs2).map (fun p => (e :: p.1, p.2))
        else if e = chr 98 then (parseStringBody cs2).map (fun p => (chr 8 :: p.1, p.2))
        else if e = chr 102 then (parseStringBody cs2).map (fun p => (chr 12 :: p.1, p.2))
        else if e = chr 110 then (parseStringBody cs2).map (fun p => (chr 10 :: p.1, p.2))
        else if e = chr 114 then (parseStringBody cs2).map (fun p => (chr 13 :: p.1, p.2))
        else if e = chr 116 then (parseStringBody cs2).map (fun p => (chr 9 :: p.1, p.2))
        else if e = chr 117 then
          match cs2 with
          | h1 :: h2 :: h3 :: h4 :: cs3 =>
            if isHexDigit h1 && isHexDigit h2 && isHexDigit h3 && isHexDigit h4 then
              (parseStringBody cs3).map (fun p =>
                (chr (((hexVal h1 * 16 + hexVal h2) * 16 + hexVal h3) * 16 + hexVal h4) :: p.1, p.2))
            else none
          | _ => none
        else none
    else if c.toNat < 32 then none
    else (parseStringBody cs).map (fun p => (c :: p.1, p.2))

/-- JSON number grammar: an optional minus sign, an integer part with no
leading zeros, an optional fraction, an optional exponent.  Returns the
rational value and the remaining input. -/
def parseJNum (cs : List Char) : Option (ℚ × List Char) :=
  let (neg, cs1) :=
    match cs with
    | c :: rest => if c = chr 45 then (true, rest) else (false, cs)
    | [] => (false, cs)
  let (ip, cs2) := cs1.span Char.isDigit
  if ip = [] then none
  else if 1 < ip.length ∧ ip.headI = chr 48 then none
  else
    let intQ : ℚ := (digitsVal ip : ℚ)
    let (mant, cs3) :=
      match cs2 with
      | c :: rest =>
        if c = chr 46 then
          let (fp, cs4) := rest.span Char.isDigit
          if fp = [] then (none, cs2)
          else (some (intQ + (digitsVal fp : ℚ) / ((10 : ℚ) ^ fp.length)), cs4)
        else (some intQ, cs2)
      | [] => (some intQ, cs2)
    match mant with
    | none => none
    | some m =>
      let (res, cs5) :=
        match cs3 with
        | c :: rest =>
          if c = chr 101 ∨ c = chr 69 then
            let (esgn, restE) :=
              match rest with
              | d :: rest2 =>
                if d = chr 45 then ((-1 : ℤ), rest2)
                else if d = chr 43 then ((1 : ℤ), rest2)
                else ((1 : ℤ), rest)
              | [] => ((1 : ℤ), rest)
            let (eds, cs6) := restE.span Char.isDigit
            if eds = [] then (none, cs3)
            else (some (m * (10 : ℚ) ^ (esgn * (digitsVal eds : ℤ))), cs6)
          else (some m, cs3)
        | [] => (some m, cs3)
      match res with
      | none => none
      | some r => some ((if neg then -r else r), cs5)

mutual

/-- Fuel-indexed recursive-descent JSON value parser, mirroring json.loads on
the grammar actually exercised by the program (the non-standard NaN/Infinity
extensions of json.loads are not modelled). -/
def parseVal : Nat → List Char → Option (JVal × List Char)
  | 0, _ => none
  | fuel + 1, cs =>
    match skipWs cs with
    | [] => none
    | c :: rest =>
      if c = quoteC then
        (parseStringBody rest).map (fun p => (JVal.jstr (String.mk p.1), p.2))
      else if c = lbraceC then
        match skipWs rest with
        | d :: rest2 =>
          if d = rbraceC then some (JVal.jobj [], rest2)
          else parseMembers fuel (d :: rest2) []
        | [] => none
      else if c = chr 91 then
        match skipWs rest with
        | d :: rest2 =>
          if d = chr 93 then some (JVal.jarr [], rest2)
          else parseElems fuel (d :: rest2) []
        | [] => none
      else if (c :: rest).take 4 = [chr 110, chr 117, chr 108, chr 108] then
        some (JVal.jnull, (c :: rest).drop 4)
      else if (c :: rest).take 4 = [chr 116, chr 114, chr 117, chr 101] then
        some (JVal.jbool true, (c :: rest).drop 4)
      else if (c :: rest).take 5 = [chr 102, chr 97, chr 108, chr 115, chr 101] then
        some (JVal.jbool false, (c :: rest).drop 5)
      else (parseJNum (c :: rest)).map (fun p => (JVal.jnum p.1, p.2))

/-- One or more comma-separated array elements, accumulated in order. -/
def parseElems : Nat → List Char → List JVal → Option (JVal × List Char)
  | 0, _, _ => none
  | fuel + 1, cs, acc =>
    match parseVal fuel cs with
    | none => none
    | some (v, rest) =>
      match skipWs rest with
      | c :: rest2 =>
        if c = chr 44 then parseElems fuel rest2 (acc ++ [v])
        else if c = chr 93 then some (JVal.jarr (acc ++ [v]), rest2)
        else none
      | [] => none

/-- One or more comma-separated object members, accumulated in order. -/
def parseMembers : Nat → List Char → List (String × JVal) → Option (JVal × List Char)
  | 0, _, _ => none
  | fuel + 1, cs, acc =>
    match skipWs cs with
    | c :: rest =>
      if c = quoteC then
        match parseStringBody rest with
        | none => none
        | some (key, rest2) =>
          match skipWs rest2 with
          | d :: rest3 =>
            if d = chr 58 then
              match parseVal fuel rest3 with
              | none => none
              | some (v, rest4) =>
                match skipWs rest4 with
                | e :: rest5 =>
                  if e = chr 44 then parseMembers fuel rest5 (acc ++ [(String.mk key, v)])
                  else if e = rbraceC then some (JVal.jobj (acc ++ [(String.mk key, v)]), rest5)
                  else none
                | [] => none
            else none
          | [] => none
      else none
    | [] => none

end

/-- Model of json.loads: parse one JSON value and require that only whitespace
follows it. -/
def json_loads (s : String) : Option JVal :=
  let cs := s.toList
  match parseVal (2 * cs.length + 2) cs with
  | some (v, rest) => if skipWs rest = [] then some v else none
  | none => none

/-- Last-wins association-list lookup, matching the dict json.loads builds
when an object repeats a key. -/
def lookupLast : List (String × JVal) → String → Option JVal
  | [], _ => none
  | p :: rest, k =>
    match lookupLast rest k with
    | some v => some v
    | none => if p.1 = k then some p.2 else none

/-- Python dict lookup restricted to decoded JSON values: defined on objects
only, none otherwise. -/
def jLookup : JVal → String → Option JVal
  | .jobj fs, k => lookupLast fs k
  | _, _ => none

/-- Python d.get(k, default): attribute lookup on a non-dict raises
(AttributeError), modelled as Except.error. -/
def pyDictGet (v : JVal) (k : String) (d : JVal) : Except Unit JVal :=
  match v with
  | .jobj fs => .ok ((lookupLast fs k).getD d)
  | _ => .error ()

/-- Whether one character list is a prefix of another. -/
def isPre : List Char → List Char → Bool
  | [], _ => true
  | _ :: _, [] => false
  | a :: as, b :: bs => a = b && isPre as bs

/-- Whether the needle occurs as a contiguous substring of the haystack, as
the Python in operator on strings (the empty needle always occurs). -/
def hasSubstr (needle : List Char) : List Char → Bool
  | [] => isPre needle []
  | c :: t => if isPre needle (c :: t) then true else hasSubstr needle t

/-- Python membership test k in v for a string needle: key membership for a
dict, element equality for a list, substring test for a str, TypeError
(Except.error) for the other decoded JSON values. -/
def pyIn (k : String) (v : JVal) : Except Unit Bool :=
  match v with
  | .jobj fs => .ok (fs.any (fun p => p.1 = k))
  | .jarr xs => .ok (xs.any (fun x => match x with | .jstr t => t = k | _ => false))
  | .jstr t => .ok (hasSubstr k.toList t.toList)
  | _ => .error ()

/-- Python v[k] for a string key: dict lookup (KeyError when absent), and
TypeError on every non-dict decoded JSON value. -/
def pySubscript (v : JVal) (k : String) : Except Unit JVal :=
  match v with
  | .jobj fs =>
    match lookupLast fs k with
    | some x => .ok x
    | none => .error ()
  | _ => .error ()

/-- Python v[i] for a nonnegative integer index: list and str indexing with
IndexError when out of range, TypeError otherwise. -/
def pyIndex (v : JVal) (i : Nat) : Except Unit JVal :=
  match v with
  | .jarr xs =>
    match xs[i]? with
    | some x => .ok x
    | none => .error ()
  | .jstr t =>
    match t.toList[i]? with
    | some c => .ok (.jstr (String.mk [c]))
    | none => .error ()
  | _ => .error ()

/-- The decoded JSON values pandas treats as scalars when building a frame:
strings, numbers, booleans and None. -/
def pdScalar : JVal → Bool
  | .jnull => true
  | .jbool _ => true
  | .jnum _ => true
  | .jstr _ => true
  | _ => false

/-- Model of pd.DataFrame(Category: ls, Amount: vs) in create_visualization:
two list columns are taken as given when their lengths agree and raise
ValueError otherwise; a scalar column (str, number, bool, None) against a
list column is broadcast to the length of the list; two scalar columns with
no index raise ValueError.  A column holding a decoded JSON object triggers
pandas index alignment, which no claim exercises; it is modelled as raising.
The subsequent plotly/streamlit calls are modelled as never raising. -/
def pdFrame (ls vs : JVal) : Except Unit (List JVal × List JVal) :=
  match ls, vs with
  | .jarr a, .jarr b => if a.length = b.length then .ok (a, b) else .error ()
  | .jarr a, v => if pdScalar v then .ok (a, List.replicate a.length v) else .error ()
  | v, .jarr b => if pdScalar v then .ok (List.replicate b.length v, b) else .error ()
  | _, _ => .error ()

/-- Index of the first occurrence of a character, as Python str.find (find
returning -1 is modelled by none). -/
def findIdx (c : Char) : List Char → Option Nat
  | [] => none
  | x :: xs => if x = c then some 0 else (findIdx c xs).map (· + 1)

/-- Index of the last occurrence of a character, as Python str.rfind. -/
def rfindIdx (c : Char) : List Char → Option Nat
  | [] => none
  | x :: xs =>
    match rfindIdx c xs with
    | some i => some (i + 1)
    | none => if x = c then some 0 else none

/-- Lines 103 to 106 of the source: start = text.find(<lbrace>),
end = text.rfind(<rbrace>) + 1, and the slice text[start:end] when
start is not -1 and end exceeds start. -/
def extractSpan (text : String) : Option String :=
  let cs := text.toList
  match findIdx lbraceC cs with
  | none => none
  | some s =>
    match rfindIdx rbraceC cs with
    | none => none
    | some j => if s < j + 1 then some (String.mk ((cs.drop s).take (j + 1 - s))) else none

/-- The two UI themes. -/
inductive Theme where
  | day
  | night

/-- Plotly template chosen on line 130 of the source. -/
def templateOf : Theme → String
  | .night => "plotly_dark"
  | .day => "plotly_white"

/-- Chart shapes selectable on lines 121 to 126. -/
inductive ChartShape where
  | pie
  | line
  | bar

/-- Lines 121 to 126: pie and line are matched by string equality, and
everything else, including values that are not strings, falls to bar. -/
def shapeOf : JVal → ChartShape
  | .jstr s => if s = "pie" then .pie else if s = "line" then .line else .bar
  | _ => .bar

/-- One stored chat message (an element of st.session_state.messages). -/
structure Msg where
  role : String
  content : JVal

/-- A display artifact emitted through streamlit: markdown text, a chart
subheader, a rendered chart, the canvas-mode chart, or one of the error
messages from lines 139, 182, 184, 240 and 242 of the source. -/
inductive Artifact where
  | markdownA (v : JVal)
  | subheaderA (title : JVal)
  | chartA (shape : ChartShape) (title : JVal) (labels : List JVal) (values : List JVal)
      (template : String)
  | canvasChartA (rows : List (String × ℚ))
  | vizErrorA
  | gatewayErrorA
  | countMismatchErrorA
  | numericErrorA

/-- The session state the embedding tracks: the message log and the sequence
of display artifacts produced so far. -/
structure AppState where
  messages : List Msg
  artifacts : List Artifact

/-- Emit a display artifact. -/
def pushA (s : AppState) (a : Artifact) : AppState :=
  { s with artifacts := s.artifacts ++ [a] }

/-- Append one message to st.session_state.messages. -/
def pushMsg (s : AppState) (m : Msg) : AppState :=
  { s with messages := s.messages ++ [m] }

/-- Lines 107 to 137 of create_visualization, applied to the extracted span:
json.loads, the three .get calls with their defaults, the labels/values
membership test, and the data-frame construction.  Outcomes: error () when a
raised exception reaches the handler on line 138, ok none when the membership
test fails (fall through to return False with nothing displayed), and
ok (shape, title, labels, values) when a chart is rendered. -/
def vizOfData (data : JVal) : Except Unit (Option (ChartShape × JVal × List JVal × List JVal)) :=
  match pyDictGet data "chart_type" (.jstr "bar") with
  | .error _ => .error ()
  | .ok ct =>
    match pyDictGet data "title" (.jstr "Financial Analysis") with
    | .error _ => .error ()
    | .ok title =>
      match pyDictGet data "data" (.jobj []) with
      | .error _ => .error ()
      | .ok chart_data =>
        match pyIn "labels" chart_data, pyIn "values" chart_data with
        | .error _, _ => .error ()
        | .ok _, .error _ => .error ()
        | .ok hl, .ok hv =>
          if hl && hv then
            match pySubscript chart_data "labels" with
            | .error _ => .error ()
            | .ok ls =>
              match pySubscript chart_data "values" with
              | .error _ => .error ()
              | .ok vs =>
                match pdFrame ls vs with
                | .error _ => .error ()
                | .ok (la, va) => .ok (some (shapeOf ct, title, la, va))
          else .ok none

/-- Decode the extracted span and render it. -/
def vizBody (jsonStr : String) : Except Unit (Option (ChartShape × JVal × List JVal × List JVal)) :=
  match json_loads jsonStr with
  | none => .error ()
  | some data => vizOfData data

/-- What create_visualization does once a span has been extracted: on an
exception the handler on lines 138 to 139 shows an error and False is
returned; on a fall-through nothing is displayed; on success the subheader
and the themed chart are displayed and True is returned. -/
def renderSpan (θ : Theme) (s : AppState) (jsonStr : String) : AppState × Bool :=
  match vizBody jsonStr with
  | .error _ => (pushA s .vizErrorA, false)
  | .ok none => (s, false)
  | .ok (some (shape, title, ls, vs)) =>
    (pushA (pushA s (.subheaderA title)) (.chartA shape title ls vs (templateOf θ)), true)

/-- Lines 100 to 140: create_visualization(text). -/
def createVisualization (θ : Theme) (s : AppState) (text : String) : AppState × Bool :=
  match extractSpan text with
  | none => (s, false)
  | some j => renderSpan θ s j

/-- create_visualization applied to an assistant content value: the source
always passes a str; on any other decoded value text.find raises inside the
try block, the handler shows the error, and False is returned. -/
def createVisualizationVal (θ : Theme) (s : AppState) (v : JVal) : AppState × Bool :=
  match v with
  | .jstr t => createVisualization θ s t
  | _ => (pushA s .vizErrorA, false)

/-- The fixed system preamble content seeded on lines 91 to 97 of the source
(a triple-quoted Python string; the inner line indentation and the trailing
spaces of the first two lines are part of the content). -/
def sysPromptContent : String :=
  "You are a helpful financial assistant. Provide advice on budgeting, saving, investing, and personal finance. \n        When users provide financial data (like expenses, income, budgets, investments), respond with both advice AND a JSON object \n        for visualization. Format: \x7b\"chart_type\": \"pie|bar|line\", \"title\": \"Chart Title\", \"data\": \x7b\"labels\": [], \"values\": []\x7d\x7d\n        Always remind users to consult with licensed financial advisors for important decisions."

/-- The system preamble message, element 0 of the log. -/
def sysMsg : Msg := { role := "system", content := .jstr sysPromptContent }

/-- The message log right after session start. -/
def initMessages : List Msg := [sysMsg]

/-- The app state at the start of a session: seeded log, nothing displayed. -/
def st0 : AppState := { messages := initMessages, artifacts := [] }

/-- A user message as appended on line 152. -/
def userMsg (p : String) : Msg := { role := "user", content := .jstr p }

/-- Outcome of the requests.post call on line 170 as the handler observes it:
either the call raises (transport failure), or a response arrives with a
status code and a body; body none models a body on which response.json()
raises. -/
inductive GResp where
  | transportError
  | httpResp (status : Nat) (body : Option JVal)

/-- Line 174: response_data[<q>choices<q>][0][<q>message<q>][<q>content<q>],
with each subscript raising as Python does on a value of the wrong shape. -/
def extractContent (body : JVal) : Except Unit JVal :=
  match pySubscript body "choices" with
  | .error _ => .error ()
  | .ok choices =>
    match pyIndex choices 0 with
    | .error _ => .error ()
    | .ok c0 =>
      match pySubscript c0 "message" with
      | .error _ => .error ()
      | .ok msg => pySubscript msg "content"

/-- Lines 152 to 184: one chat turn on a submitted prompt.  The user message
is appended and echoed first; then the gateway outcome is handled.  Any
exception inside the try block and any non-200 status produce one error
display (lines 182 and 184; on a non-dict body the .get on line 182 itself
raises into the handler on line 184, which also just displays an error) and
append nothing further; a 200 response with a well-shaped body is displayed,
run through create_visualization, and appended as the assistant message. -/
def chatTurn (θ : Theme) (s : AppState) (prompt : String) (g : GResp) : AppState :=
  let s1 := pushA (pushMsg s (userMsg prompt)) (.markdownA (.jstr prompt))
  match g with
  | .transportError => pushA s1 .gatewayErrorA
  | .httpResp status body =>
    match body with
    | none => pushA s1 .gatewayErrorA
    | some bd =>
      if status = 200 then
        match extractContent bd with
        | .error _ => pushA s1 .gatewayErrorA
        | .ok c =>
          let s2 := pushA s1 (.markdownA c)
          let s3 := (createVisualizationVal θ s2 c).1
          pushMsg s3 { role := "assistant", content := c }
      else pushA s1 .gatewayErrorA

/-- Line 151: the walrus guard if prompt := st.chat_input(...).  No submission
and the empty string are falsy and skip the whole handler; any other string,
whitespace-only ones included, runs the turn. -/
def handleChatInput (θ : Theme) (s : AppState) (input : Option String) (g : GResp) : AppState :=
  match input with
  | none => s
  | some p => if p = "" then s else chatTurn θ s p g

/-- Python whitespace test used by str.strip. -/
def pyWs (c : Char) : Bool :=
  c = chr 32 || c = chr 9 || c = chr 10 || c = chr 13 || c = chr 11 || c = chr 12

/-- Python str.strip(): drop whitespace from both ends. -/
def pyStrip (cs : List Char) : List Char :=
  ((cs.dropWhile pyWs).reverse.dropWhile pyWs).reverse

/-- Python str.split(<comma>): split at every comma, keeping empty pieces. -/
def pySplitComma : List Char → List (List Char)
  | [] => [[]]
  | c :: cs =>
    if c = chr 44 then [] :: pySplitComma cs
    else
      match pySplitComma cs with
      | g :: gs => (c :: g) :: gs
      | [] => [[c]]

/-- Python float(s) on the inputs the canvas path can produce: optional
whitespace and sign, then digits with an optional fraction part and an
optional exponent.  The inf/nan spellings and digit-group underscores float()
also accepts are not modelled (no claim exercises them).  none models a
ValueError. -/
def pyFloat (cs0 : List Char) : Option ℚ :=
  let cs := pyStrip cs0
  let (neg, cs1) :=
    match cs with
    | c :: rest =>
      if c = chr 45 then (true, rest)
      else if c = chr 43 then (false, rest)
      else (false, cs)
    | [] => (false, cs)
  let (ip, cs2) := cs1.span Char.isDigit
  let (mant, cs3) :=
    match cs2 with
    | c :: rest =>
      if c = chr 46 then
        let (fp, cs4) := rest.span Char.isDigit
        if ip = [] ∧ fp = [] then (none, cs4)
        else (some ((digitsVal ip : ℚ) + (digitsVal fp : ℚ) / ((10 : ℚ) ^ fp.length)), cs4)
      else if ip = [] then (none, cs2)
      else (some (digitsVal ip : ℚ), cs2)
    | [] =>
      if ip = [] then (none, cs2)
      else (some (digitsVal ip : ℚ), cs2)
  match mant with
  | none => none
  | some m =>
    let (res, cs5) :=
      match cs3 with
      | c :: rest =>
        if c = chr 101 ∨ c = chr 69 then
          let (esgn, restE) :=
            match rest with
            | d :: rest2 =>
              if d = chr 45 then ((-1 : ℤ), rest2)
              else if d = chr 43 then ((1 : ℤ), rest2)
              else ((1 : ℤ), rest)
            | [] => ((1 : ℤ), rest)
          let (eds, cs6) := restE.span Char.isDigit
          if eds = [] then (none, cs3)
          else (some (m * (10 : ℚ) ^ (esgn * (digitsVal eds : ℤ))), cs6)
        else (some m, cs3)
      | [] => (some m, cs3)
    match res with
    | none => none
    | some r => if cs5 = [] then some (if neg then -r else r) else none

/-- Line 227: list(map(float, amounts)); the first non-numeric entry raises
ValueError, modelled by none. -/
def parseAmounts : List (List Char) → Option (List ℚ)
  | [] => some []
  | a :: rest =>
    match pyFloat a with
    | none => none
    | some q => (parseAmounts rest).map (q :: ·)

/-- Lines 220 to 242: the canvas-mode handler once both text areas hold some
text.  Empty text in either area is falsy and skips the handler.  Categories
and amounts are split on commas and stripped; the amounts are converted to
float (ValueError is caught on line 241 and displayed); on a count mismatch
the error of line 240 is displayed; otherwise the custom bar chart is
displayed with the category/amount rows in input order. -/
def canvasHandler (s : AppState) (categories amounts : String) : AppState :=
  if categories = "" ∨ amounts = "" then s
  else
    let cats := (pySplitComma categories.toList).map (fun c => String.mk (pyStrip c))
    match parseAmounts ((pySplitComma amounts.toList).map pyStrip) with
    | none => pushA s .numericErrorA
    | some amts =>
      if cats.length = amts.length then
        pushA s (.canvasChartA (cats.zip amts))
      else pushA s .countMismatchErrorA

/-- The operations the source ever performs on st.session_state.messages:
append (lines 91, 152, 180) and the clear action of line 190, which reassigns
the log to the one-element list holding its element 0. -/
inductive LogOp where
  | appendM (m : Msg)
  | resetM

/-- Apply one log operation. -/
def applyOp (ms : List Msg) : LogOp → List Msg
  | .appendM m => ms ++ [m]
  | .resetM => ms.take 1

/-- The log after a sequence of operations starting from the seeded log. -/
def runOps (ops : List LogOp) : List Msg :=
  ops.foldl applyOp initMessages

/-- The chart-data object create_visualization works with: the data field of
the decoded span, defaulting to an empty object (line 111). -/
def chartDataOf (data : JVal) : JVal :=
  (jLookup data "data").getD (.jobj [])

/-- The chart title after the line 110 default. -/
def titleOf (data : JVal) : JVal :=
  (jLookup data "title").getD (.jstr "Financial Analysis")

/-- The chart shape after the line 109 default and the lines 121 to 126
dispatch. -/
def shapeOfData (data : JVal) : ChartShape :=
  shapeOf ((jLookup data "chart_type").getD (.jstr "bar"))

/-- The gateway-failure outcomes of one turn: the response has a non-200
status, or its body is not decodable, or the body lacks the
choices[0].message.content path (extraction raises); a transport failure also
ends the turn the same way. -/
def turnFails : GResp → Prop
  | .transportError => True
  | .httpResp status body =>
    status ≠ 200 ∨ body = none ∨ (∃ bd, body = some bd ∧ extractContent bd = .error ())

theorem findIdx_sound {c : Char} :
    ∀ {cs : List Char} {i : Nat}, findIdx c cs = some i → cs[i]? = some c := by
  intro cs
  induction cs with
  | nil => intro i h; simp [findIdx] at h
  | cons x xs ih =>
    intro i h
    by_cases hx : x = c
    · simp [findIdx, hx] at h
      subst h
      simp [hx]
    · simp [findIdx, hx] at h
      obtain ⟨i0, h0, hi⟩ := h
      subst hi
      simpa using ih h0

theorem findIdx_min {c : Char} :
    ∀ {cs : List Char} {i : Nat}, findIdx c cs = some i →
      ∀ k, k < i → cs[k]? ≠ some c := by
  intro cs
  induction cs with
  | nil => intro i h; simp [findIdx] at h
  | cons x xs ih =>
    intro i h k hk
    by_cases hx : x = c
    · simp [findIdx, hx] at h
      omega
    · simp [findIdx, hx] at h
      obtain ⟨i0, h0, hi⟩ := h
      subst hi
      cases k with
      | zero => simpa using hx
      | succ k0 => simpa using ih h0 k0 (by omega)

theorem findIdx_of {c : Char} :
    ∀ {cs : List Char} {i : Nat}, cs[i]? = some c →
      (∀ k, k < i → cs[k]? ≠ some c) → findIdx c cs = some i := by
  intro cs
  induction cs with
  | nil => intro i h _; simp at h
  | cons x xs ih =>
    intro i h hmin
    cases i with
    | zero =>
      simp at h
      simp [findIdx, h]
    | succ i0 =>
      have hx : x ≠ c := by
        have := hmin 0 (by omega)
        simpa using this
      simp at h
      have hrec := ih h (fun k hk => by
        have := hmin (k + 1) (by omega)
        simpa using this)
      simp [findIdx, hx, hrec]

theorem rfindIdx_none {c : Char} :
    ∀ {cs : List Char}, rfindIdx c cs = none → ∀ j : Nat, cs[j]? ≠ some c := by
  intro cs
  induction cs with
  | nil => intro _ j; simp
  | cons x xs ih =>
    intro h j
    rw [rfindIdx] at h
    cases hr : rfindIdx c xs with
    | some i => rw [hr] at h; simp at h
    | none =>
      rw [hr] at h
      by_cases hx : x = c
      · simp [hx] at h
      · cases j with
        | zero => simpa using hx
        | succ j0 => simpa using ih hr j0

theorem rfindIdx_sound {c : Char} :
    ∀ {cs : List Char} {j : Nat}, rfindIdx c cs = some j → cs[j]? = some c := by
  intro cs
  induction cs with
  | nil => intro j h; simp [rfindIdx] at h
  | cons x xs ih =>
    intro j h
    rw [rfindIdx] at h
    cases hr : rfindIdx c xs with
    | some i =>
      rw [hr] at h
      simp at h
      subst h
      simpa using ih hr
    | none =>
      rw [hr] at h
      by_cases hx : x = c
      · simp [hx] at h
        subst h
        simp [hx]
      · simp [hx] at h

theorem rfindIdx_max {c : Char} :
    ∀ {cs : List Char} {j : Nat}, rfindIdx c cs = some j →
      ∀ k, j < k → cs[k]? ≠ some c := by
  intro cs
  induction cs with
  | nil => intro j h; simp [rfindIdx] at h
  | cons x xs ih =>
    intro j h k hk
    rw [rfindIdx] at h
    cases hr : rfindIdx c xs with
    | some i =>
      rw [hr] at h
      simp at h
      subst h
      cases k with
      | zero => omega
      | succ k0 => simpa using ih hr k0 (by omega)
    | none =>
      rw [hr] at h
      by_cases hx : x = c
      · simp [hx] at h
        subst h
        cases k with
        | zero => omega
        | succ k0 => simpa using rfindIdx_none hr k0
      · simp [hx] at h

theorem rfindIdx_of {c : Char} :
    ∀ {cs : List Char} {j : Nat}, cs[j]? = some c →
      (∀ k, j < k → cs[k]? ≠ some c) → rfindIdx c cs = some j := by
  intro cs
  induction cs with
  | nil => intro j h _; simp at h
  | cons x xs ih =>
    intro j h hmax
    cases j with
    | zero =>
      simp at h
      have hnone : rfindIdx c xs = none := by
        cases hr : rfindIdx c xs with
        | none => rfl
        | some i =>
          exfalso
          exact hmax (i + 1) (by omega) (by simpa using rfindIdx_sound hr)
      rw [rfindIdx, hnone]
      simp [h]
    | succ j0 =>
      simp at h
      have hrec := ih h (fun k hk => by
        have := hmax (k + 1) (by omega)
        simpa using this)
      rw [rfindIdx, hrec]

theorem lookupLast_none_iff {fs : List (String × JVal)} {k : String} :
    lookupLast fs k = none ↔ fs.any (fun p => p.1 = k) = false := by
  induction fs with
  | nil => simp [lookupLast]
  | cons p rest ih =>
    rw [lookupLast, List.any_cons]
    cases hr : lookupLast rest k with
    | some v =>
      have hany : rest.any (fun p => p.1 = k) = true := by
        cases hany : rest.any (fun p => p.1 = k) with
        | false => rw [ih.mpr hany] at hr; cases hr
        | true => rfl
      simp [hany]
    | none =>
      have hany : rest.any (fun p => p.1 = k) = false := ih.mp hr
      by_cases hp : p.1 = k <;> simp [hp, hany]

theorem lookupLast_any {fs : List (String × JVal)} {k : String} {x : JVal}
    (h : lookupLast fs k = some x) : fs.any (fun p => p.1 = k) = true := by
  cases hany : fs.any (fun p => p.1 = k) with
  | false => rw [lookupLast_none_iff.mpr hany] at h; cases h
  | true => rfl

theorem any_lookupLast {fs : List (String × JVal)} {k : String}
    (h : fs.any (fun p => p.1 = k) = true) : ∃ x, lookupLast fs k = some x := by
  cases hl : lookupLast fs k with
  | some v => exact ⟨v, rfl⟩
  | none => rw [lookupLast_none_iff.mp hl] at h; cases h

theorem pushA_messages (s : AppState) (a : Artifact) :
    (pushA s a).messages = s.messages := rfl

theorem renderSpan_messages (θ : Theme) (s : AppState) (j : String) :
    (renderSpan θ s j).1.messages = s.messages := by
  rw [renderSpan]
  cases vizBody j with
  | error e => rfl
  | ok o =>
    cases o with
    | none => rfl
    | some v =>
      obtain ⟨sh, t, ls, vs⟩ := v
      rfl

theorem createVisualization_messages (θ : Theme) (s : AppState) (text : String) :
    (createVisualization θ s text).1.messages = s.messages := by
  rw [createVisualization]
  cases extractSpan text with
  | none => rfl
  | some j => exact renderSpan_messages θ s j

theorem createVisualizationVal_messages (θ : Theme) (s : AppState) (v : JVal) :
    (createVisualizationVal θ s v).1.messages = s.messages := by
  cases v <;> first
    | rfl
    | exact createVisualization_messages θ s _

theorem chatTurn_messages (θ : Theme) (s : AppState) (p : String) (g : GResp) :
    ∃ tail, (chatTurn θ s p g).messages = s.messages ++ (userMsg p :: tail) := by
  cases g with
  | transportError => exact ⟨[], by simp [chatTurn, pushMsg, pushA]⟩
  | httpResp status body =>
    cases body with
    | none => exact ⟨[], by simp [chatTurn, pushMsg, pushA]⟩
    | some bd =>
      by_cases hs : status = 200
      · cases hec : extractContent bd with
        | error e => exact ⟨[], by simp [chatTurn, hs, hec, pushMsg, pushA]⟩
        | ok c =>
          refine ⟨[{ role := "assistant", content := c }], ?_⟩
          simp [chatTurn, hs, hec, pushMsg, pushA, createVisualizationVal_messages]
      · exact ⟨[], by simp [chatTurn, hs, pushMsg, pushA]⟩

theorem vizOfData_renders {data : JVal} {ls vs : List JVal}
    (hl : jLookup (chartDataOf data) "labels" = some (.jarr ls))
    (hv : jLookup (chartDataOf data) "values" = some (.jarr vs))
    (hlen : ls.length = vs.length) :
    vizOfData data = .ok (some (shapeOfData data, titleOf data, ls, vs)) := by
  cases data with
  | jobj fs =>
    cases hcd : lookupLast fs "data" with
    | none => simp [chartDataOf, jLookup, hcd, lookupLast] at hl
    | some cd =>
      cases cd with
      | jobj gs =>
        rw [chartDataOf, jLookup, hcd] at hl hv
        simp only [Option.getD_some] at hl hv
        rw [jLookup] at hl hv
        have hanyL : gs.any (fun p => p.1 = "labels") = true := lookupLast_any hl
        have hanyV : gs.any (fun p => p.1 = "values") = true := lookupLast_any hv
        rw [vizOfData]
        simp only [pyDictGet, pyIn, hanyL, hanyV, Bool.and_self, if_true,
          pySubscript, hcd, Option.getD_some, hl, hv, pdFrame, hlen, if_pos,
          Bool.and_true]
        simp [shapeOfData, titleOf, jLookup, hcd, hlen]
      | jnull => simp [chartDataOf, jLookup, hcd] at hl
      | jbool b => simp [chartDataOf, jLookup, hcd] at hl
      | jnum q => simp [chartDataOf, jLookup, hcd] at hl
      | jstr t => simp [chartDataOf, jLookup, hcd] at hl
      | jarr xs => simp [chartDataOf, jLookup, hcd] at hl
  | jnull => simp [chartDataOf, jLookup, lookupLast] at hl
  | jbool b => simp [chartDataOf, jLookup, lookupLast] at hl
  | jnum q => simp [chartDataOf, jLookup, lookupLast] at hl
  | jstr t => simp [chartDataOf, jLookup, lookupLast] at hl
  | jarr xs => simp [chartDataOf, jLookup, lookupLast] at hl

theorem viz_renders (θ : Theme) (s : AppState) {text j : String} {data : JVal}
    {ls vs : List JVal}
    (h1 : extractSpan text = some j)
    (h2 : json_loads j = some data)
    (hl : jLookup (chartDataOf data) "labels" = some (.jarr ls))
    (hv : jLookup (chartDataOf data) "values" = some (.jarr vs))
    (hlen : ls.length = vs.length) :
    createVisualization θ s text =
      (pushA (pushA s (.subheaderA (titleOf data)))
        (.chartA (shapeOfData data) (titleOf data) ls vs (templateOf θ)), true) := by
  simp only [createVisualization, h1, renderSpan.eq_def, vizBody, h2,
    vizOfData_renders hl hv hlen]

theorem vizOfData_some_in {data : JVal} {r : ChartShape × JVal × List JVal × List JVal}
    (h : vizOfData data = .ok (some r)) :
    pyIn "labels" (chartDataOf data) = .ok true ∧
      pyIn "values" (chartDataOf data) = .ok true := by
  cases data with
  | jobj fs =>
    rw [vizOfData] at h
    simp only [pyDictGet] at h
    rw [show chartDataOf (JVal.jobj fs) = (lookupLast fs "data").getD (.jobj []) from rfl]
    revert h
    cases hcd : lookupLast fs "data" with
    | none =>
      intro h
      simp only [Option.getD_none, pyIn, List.any_nil, Bool.and_self, if_false,
        Bool.false_and] at h
      cases h
    | some cd =>
      intro h
      simp only [Option.getD_some] at h ⊢
      cases cd with
      | jobj gs =>
        simp only [pyIn] at h ⊢
        cases hanyL : gs.any (fun p => p.1 = "labels") with
        | false => rw [hanyL] at h; simp at h
        | true =>
          rw [hanyL] at h
          cases hanyV : gs.any (fun p => p.1 = "values") with
          | false => rw [hanyV] at h; simp at h
          | true => exact ⟨rfl, rfl⟩
      | jnull => simp [pyIn] at h
      | jbool b => simp [pyIn] at h
      | jnum q => simp [pyIn] at h
      | jstr t =>
        simp only [pyIn] at h
        by_cases hin : (hasSubstr ("labels").toList t.toList && hasSubstr ("values").toList t.toList) = true
        · rw [if_pos ?_] at h
          · simp [pySubscript] at h
          · exact hin
        · rw [if_neg hin] at h; cases h
      | jarr xs =>
        simp only [pyIn] at h
        by_cases hin : ((xs.any fun x => match x with | .jstr t => t = "labels" | _ => false) &&
            (xs.any fun x => match x with | .jstr t => t = "values" | _ => false)) = true
        · rw [if_pos hin] at h
          simp [pySubscript] at h
        · rw [if_neg hin] at h; cases h
  | jnull => simp [vizOfData, pyDictGet] at h
  | jbool b => simp [vizOfData, pyDictGet] at h
  | jnum q => simp [vizOfData, pyDictGet] at h
  | jstr t => simp [vizOfData, pyDictGet] at h
  | jarr xs => simp [vizOfData, pyDictGet] at h

theorem viz_true_in {θ : Theme} {s : AppState} {text j : String} {data : JVal}
    (h1 : extractSpan text = some j)
    (h2 : json_loads j = some data)
    (htrue : (createVisualization θ s text).2 = true) :
    pyIn "labels" (chartDataOf data) = .ok true ∧
      pyIn "values" (chartDataOf data) = .ok true := by
  simp only [createVisualization, h1, renderSpan.eq_def, vizBody, h2] at htrue
  revert htrue
  cases hb : vizOfData data with
  | error e => intro htrue; cases htrue
  | ok o =>
    cases o with
    | none => intro htrue; cases htrue
    | some r =>
      intro _
      exact vizOfData_some_in hb

theorem extractSpan_eq (text : String) :
    extractSpan text =
      match findIdx lbraceC text.toList with
      | none => none
      | some i =>
        match rfindIdx rbraceC text.toList with
        | none => none
        | some j =>
          if i < j + 1 then some (String.mk ((text.toList.drop i).take (j + 1 - i)))
          else none := rfl

/-- C1: For every input text, parse returns NotFound (False, nothing shown)
when the text contains no opening brace, or no closing brace occurring after
the first opening brace; otherwise it takes exactly the substring from the
first opening brace to the last closing brace inclusive and attempts
structured decoding of that one substring.  In particular, for any assistant
text with no brace pair, parse returns NotFound. -/
theorem c1_span_extraction (θ : Theme) (s : AppState) (text : String) :
    ((∀ i j : Nat, text.toList[i]? = some lbraceC → text.toList[j]? = some rbraceC → j < i) →
      createVisualization θ s text = (s, false)) ∧
    (∀ i j : Nat, text.toList[i]? = some lbraceC →
      (∀ k, k < i → text.toList[k]? ≠ some lbraceC) →
      text.toList[j]? = some rbraceC →
      (∀ k, j < k → text.toList[k]? ≠ some rbraceC) →
      i < j →
      createVisualization θ s text =
        renderSpan θ s (String.mk ((text.toList.drop i).take (j + 1 - i)))) := by
  constructor
  · intro H
    have hnone : extractSpan text = none := by
      rw [extractSpan_eq]
      cases hf : findIdx lbraceC text.toList with
      | none => rfl
      | some i =>
        cases hr : rfindIdx rbraceC text.toList with
        | none => rfl
        | some j =>
          have hij := H i j (findIdx_sound hf) (rfindIdx_sound hr)
          dsimp only
          rw [if_neg (by omega)]
    simp only [createVisualization, hnone]
  · intro i j hi hmin hj hmax hij
    have hf : findIdx lbraceC text.toList = some i := findIdx_of hi hmin
    have hr : rfindIdx rbraceC text.toList = some j := rfindIdx_of hj hmax
    have hspan : extractSpan text =
        some (String.mk ((text.toList.drop i).take (j + 1 - i))) := by
      rw [extractSpan_eq, hf, hr]
      dsimp only
      rw [if_pos (by omega)]
    simp only [createVisualization, hspan]

/-- Witness for C1: a text with no brace pair returns NotFound, and a text
with a brace pair is decoded from its first opening brace to its last closing
brace. -/
theorem c1_span_extraction_witness :
    createVisualization Theme.day st0 "" = (st0, false) ∧
    createVisualization Theme.day st0 "a\x7bx\x7db" =
      renderSpan Theme.day st0 "\x7bx\x7d" := by
  constructor
  · refine (c1_span_extraction Theme.day st0 "").1 ?_
    intro i j hi hj
    rw [show "".toList = [] from rfl] at hi
    simp at hi
  · have h := (c1_span_extraction Theme.day st0 "a\x7bx\x7db").2 1 3
      (by decide)
      (by intro k hk
          have hk0 : k = 0 := by omega
          subst hk0
          decide)
      (by decide)
      (by intro k hk
          rcases Nat.lt_or_ge k 5 with h5 | h5
          · have hk4 : k = 4 := by omega
            subst hk4
            decide
          · intro hcon
            rw [List.getElem?_eq_none (by simpa using h5)] at hcon
            cases hcon)
      (by omega)
    exact h

/-- C2 counterexample: for the text whose span is
(data: (labels: [A], values: [1, 2])), decoding succeeds and labels and
values are both present in data, yet create_visualization shows an error and
returns False (the mismatched column lengths make the data-frame construction
raise), so presence of both keys does not suffice for a renderable chart. -/
theorem c2_presence_iff_counterexample :
    (json_loads "\x7b\"data\": \x7b\"labels\": [\"A\"], \"values\": [1, 2]\x7d\x7d").isSome = true ∧
    pyIn "labels"
      (chartDataOf ((json_loads "\x7b\"data\": \x7b\"labels\": [\"A\"], \"values\": [1, 2]\x7d\x7d").getD .jnull)) = .ok true ∧
    pyIn "values"
      (chartDataOf ((json_loads "\x7b\"data\": \x7b\"labels\": [\"A\"], \"values\": [1, 2]\x7d\x7d").getD .jnull)) = .ok true ∧
    createVisualization Theme.day st0 "\x7b\"data\": \x7b\"labels\": [\"A\"], \"values\": [1, 2]\x7d\x7d" =
      (pushA st0 .vizErrorA, false) :=
  ⟨rfl, rfl, rfl, rfl⟩

/-- C2 (amended): for every text whose extracted span decodes successfully,
parse yields a renderable chart only if data.labels and data.values are both
present (the line 113 membership test passes for both); presence alone is not
sufficient: when both are present as lists of equal length a chart is
rendered, with chart_type defaulting to bar if absent or unrecognized and
title defaulting to Financial Analysis if absent, while mismatched-length
lists raise into the handler and give NotFound.  In particular, for the span
(title: T) with no data, parse returns NotFound. -/
theorem c2_renderable_amended (θ : Theme) (s : AppState) (text j : String) (data : JVal)
    (h1 : extractSpan text = some j) (h2 : json_loads j = some data) :
    ((createVisualization θ s text).2 = true →
      pyIn "labels" (chartDataOf data) = .ok true ∧
      pyIn "values" (chartDataOf data) = .ok true) ∧
    (∀ ls vs, jLookup (chartDataOf data) "labels" = some (.jarr ls) →
      jLookup (chartDataOf data) "values" = some (.jarr vs) → ls.length = vs.length →
      createVisualization θ s text =
        (pushA (pushA s (.subheaderA (titleOf data)))
          (.chartA (shapeOfData data) (titleOf data) ls vs (templateOf θ)), true)) ∧
    (∀ (θ2 : Theme) (s2 : AppState),
      createVisualization θ2 s2 "\x7b\"title\": \"T\"\x7d" = (s2, false)) := by
  refine ⟨fun htrue => viz_true_in h1 h2 htrue, ?_, fun θ2 s2 => rfl⟩
  intro ls vs hl hv hlen
  exact viz_renders θ s h1 h2 hl hv hlen

/-- Witness for C2 (amended): a rendering span passes both membership tests
and satisfies the render equation with the default title and shape, and the
span (title: T) returns NotFound. -/
theorem c2_renderable_amended_witness :
    (pyIn "labels"
        (chartDataOf (JVal.jobj [("data", JVal.jobj [("labels", JVal.jarr [JVal.jstr "A"]),
          ("values", JVal.jarr [JVal.jstr "B"])])])) = .ok true ∧
      pyIn "values"
        (chartDataOf (JVal.jobj [("data", JVal.jobj [("labels", JVal.jarr [JVal.jstr "A"]),
          ("values", JVal.jarr [JVal.jstr "B"])])])) = .ok true) ∧
    createVisualization Theme.day st0 "\x7b\"data\": \x7b\"labels\": [\"A\"], \"values\": [\"B\"]\x7d\x7d" =
      (pushA (pushA st0 (.subheaderA (.jstr "Financial Analysis")))
        (.chartA .bar (.jstr "Financial Analysis") [JVal.jstr "A"] [JVal.jstr "B"]
          "plotly_white"), true) ∧
    createVisualization Theme.night st0 "\x7b\"title\": \"T\"\x7d" = (st0, false) :=
  ⟨(c2_renderable_amended Theme.day st0
      "\x7b\"data\": \x7b\"labels\": [\"A\"], \"values\": [\"B\"]\x7d\x7d"
      "\x7b\"data\": \x7b\"labels\": [\"A\"], \"values\": [\"B\"]\x7d\x7d"
      (JVal.jobj [("data", JVal.jobj [("labels", JVal.jarr [JVal.jstr "A"]),
        ("values", JVal.jarr [JVal.jstr "B"])])]) rfl rfl).1 rfl,
   (c2_renderable_amended Theme.day st0
      "\x7b\"data\": \x7b\"labels\": [\"A\"], \"values\": [\"B\"]\x7d\x7d"
      "\x7b\"data\": \x7b\"labels\": [\"A\"], \"values\": [\"B\"]\x7d\x7d"
      (JVal.jobj [("data", JVal.jobj [("labels", JVal.jarr [JVal.jstr "A"]),
        ("values", JVal.jarr [JVal.jstr "B"])])]) rfl rfl).2.1
      [JVal.jstr "A"] [JVal.jstr "B"] rfl rfl rfl,
   (c2_renderable_amended Theme.day st0
      "\x7b\"data\": \x7b\"labels\": [\"A\"], \"values\": [\"B\"]\x7d\x7d"
      "\x7b\"data\": \x7b\"labels\": [\"A\"], \"values\": [\"B\"]\x7d\x7d"
      (JVal.jobj [("data", JVal.jobj [("labels", JVal.jarr [JVal.jstr "A"]),
        ("values", JVal.jarr [JVal.jstr "B"])])]) rfl rfl).2.2 Theme.night st0⟩

/-- C5 counterexample: for the span (data: (labels: [A], values: [abc])), the
value entry abc is not a number, yet decoding succeeds and a bar chart is
rendered with the string abc as its single value: non-numeric entries in
values are not a decode failure and do not produce NotFound. -/
theorem c5_nonnumeric_counterexample :
    jLookup
      (chartDataOf ((json_loads "\x7b\"data\": \x7b\"labels\": [\"A\"], \"values\": [\"abc\"]\x7d\x7d").getD .jnull))
      "values" = some (.jarr [.jstr "abc"]) ∧
    createVisualization Theme.day st0 "\x7b\"data\": \x7b\"labels\": [\"A\"], \"values\": [\"abc\"]\x7d\x7d" =
      (pushA (pushA st0 (.subheaderA (.jstr "Financial Analysis")))
        (.chartA .bar (.jstr "Financial Analysis") [.jstr "A"] [.jstr "abc"] "plotly_white"),
       true) :=
  ⟨rfl, rfl⟩

/-- C5 (amended): non-numeric entries in values are not rejected: for every
extracted span that decodes with labels and values present as equal-length
lists, create_visualization renders a chart and returns True even when some
entry of values is not a number. -/
theorem c5_nonnumeric_amended (θ : Theme) (s : AppState) (text j : String) (data : JVal)
    (ls vs : List JVal)
    (h1 : extractSpan text = some j) (h2 : json_loads j = some data)
    (hl : jLookup (chartDataOf data) "labels" = some (.jarr ls))
    (hv : jLookup (chartDataOf data) "values" = some (.jarr vs))
    (hlen : ls.length = vs.length)
    (hnn : ∃ v ∈ vs, ∀ q : ℚ, v ≠ .jnum q) :
    (createVisualization θ s text).2 = true := by
  rw [viz_renders θ s h1 h2 hl hv hlen]

/-- Witness for C5 (amended) at the span (data: (labels: [A], values: [abc])). -/
theorem c5_nonnumeric_amended_witness :
    (createVisualization Theme.day st0
      "\x7b\"data\": \x7b\"labels\": [\"A\"], \"values\": [\"abc\"]\x7d\x7d").2 = true :=
  c5_nonnumeric_amended Theme.day st0
    "\x7b\"data\": \x7b\"labels\": [\"A\"], \"values\": [\"abc\"]\x7d\x7d"
    "\x7b\"data\": \x7b\"labels\": [\"A\"], \"values\": [\"abc\"]\x7d\x7d"
    (JVal.jobj [("data", JVal.jobj [("labels", JVal.jarr [JVal.jstr "A"]),
      ("values", JVal.jarr [JVal.jstr "abc"])])])
    [JVal.jstr "A"] [JVal.jstr "abc"] rfl rfl rfl rfl rfl
    ⟨JVal.jstr "abc", List.mem_singleton.mpr rfl, fun q h => JVal.noConfusion h⟩

/-- C6 counterexample: for the text x(not json)y the extracted span fails
decoding and create_visualization returns False, but the skip is not silent:
the exception handler displays a user-visible error artifact. -/
theorem c6_silent_skip_counterexample :
    extractSpan "x\x7bnot json\x7dy" = some "\x7bnot json\x7d" ∧
    json_loads "\x7bnot json\x7d" = none ∧
    (createVisualization Theme.day st0 "x\x7bnot json\x7dy").1.artifacts =
      [Artifact.vizErrorA] ∧
    (createVisualization Theme.day st0 "x\x7bnot json\x7dy").2 = false :=
  ⟨rfl, rfl, rfl, rfl⟩

/-- C6 (amended): a span that fails structured decoding makes parse return
NotFound (False) non-fatally, but rendering is not skipped silently: the
exception handler displays a user-visible error; a text with no extractable
brace span returns NotFound with no display and no state change. -/
theorem c6_decode_failure_amended :
    (∀ (θ : Theme) (s : AppState) (text j : String),
      extractSpan text = some j → json_loads j = none →
      createVisualization θ s text = (pushA s .vizErrorA, false)) ∧
    (∀ (θ : Theme) (s : AppState) (text : String),
      extractSpan text = none → createVisualization θ s text = (s, false)) := by
  constructor
  · intro θ s text j h1 h2
    simp only [createVisualization, h1, renderSpan.eq_def, vizBody, h2]
  · intro θ s text h1
    simp only [createVisualization, h1]

/-- Witness for C6 (amended): the malformed-span text shows an error and
returns False; a braceless text is skipped silently. -/
theorem c6_decode_failure_amended_witness :
    createVisualization Theme.day st0 "x\x7bnot json\x7dy" = (pushA st0 .vizErrorA, false) ∧
    createVisualization Theme.day st0 "no payload" = (st0, false) :=
  ⟨c6_decode_failure_amended.1 Theme.day st0 "x\x7bnot json\x7dy" "\x7bnot json\x7d" rfl rfl,
   c6_decode_failure_amended.2 Theme.day st0 "no payload" rfl⟩

/-- C10: renderability is decided by key presence only, not non-emptiness:
for every text whose span decodes with data.labels and data.values present as
empty lists, create_visualization succeeds and returns True rather than
NotFound. -/
theorem c10_empty_lists_render (θ : Theme) (s : AppState) (text j : String) (data : JVal)
    (h1 : extractSpan text = some j) (h2 : json_loads j = some data)
    (hl : jLookup (chartDataOf data) "labels" = some (.jarr []))
    (hv : jLookup (chartDataOf data) "values" = some (.jarr [])) :
    (createVisualization θ s text).2 = true := by
  rw [viz_renders θ s h1 h2 hl hv rfl]

/-- Witness for C10 at the span (data: (labels: [], values: [])). -/
theorem c10_empty_lists_render_witness :
    (createVisualization Theme.day st0
      "\x7b\"data\": \x7b\"labels\": [], \"values\": []\x7d\x7d").2 = true :=
  c10_empty_lists_render Theme.day st0
    "\x7b\"data\": \x7b\"labels\": [], \"values\": []\x7d\x7d"
    "\x7b\"data\": \x7b\"labels\": [], \"values\": []\x7d\x7d"
    (JVal.jobj [("data", JVal.jobj [("labels", JVal.jarr []), ("values", JVal.jarr [])])])
    rfl rfl rfl rfl

theorem foldl_head {ms : List Msg} (h : ms.head? = some sysMsg) (ops : List LogOp) :
    (ops.foldl applyOp ms).head? = some sysMsg := by
  induction ops generalizing ms with
  | nil => exact h
  | cons op rest ih =>
    apply ih
    cases op with
    | appendM m =>
      cases ms with
      | nil => cases h
      | cons a t => simpa [applyOp] using h
    | resetM =>
      cases ms with
      | nil => cases h
      | cons a t => simpa [applyOp] using h

/-- C3: every operation on the message log preserves the invariant that
element 0 is the single fixed system preamble: append only adds at the end
and never reorders, after a reset the log is exactly the seeded preamble, so
the history view (all but element 0) is empty; and a chat turn only ever
appends to the log. -/
theorem c3_log_invariant :
    (∀ (ops : List LogOp) (m : Msg),
      applyOp (runOps ops) (.appendM m) = runOps ops ++ [m]) ∧
    (∀ ops : List LogOp, (runOps ops).head? = some sysMsg) ∧
    (∀ ops : List LogOp, applyOp (runOps ops) .resetM = [sysMsg]) ∧
    (∀ ops : List LogOp, (applyOp (runOps ops) .resetM).drop 1 = []) ∧
    (∀ (θ : Theme) (s : AppState) (p : String) (g : GResp),
      ∃ tail, (chatTurn θ s p g).messages = s.messages ++ (userMsg p :: tail)) := by
  have hhead : ∀ ops : List LogOp, (runOps ops).head? = some sysMsg := fun ops =>
    foldl_head (show initMessages.head? = some sysMsg from rfl) ops
  refine ⟨fun ops m => rfl, hhead, ?_, ?_, fun θ s p g => chatTurn_messages θ s p g⟩
  · intro ops
    have h := hhead ops
    cases heq : runOps ops with
    | nil => rw [heq] at h; cases h
    | cons a t =>
      rw [heq] at h
      simp only [List.head?_cons, Option.some.injEq] at h
      subst h
      rfl
  · intro ops
    cases runOps ops with
    | nil => rfl
    | cons a t => rfl

/-- C4: for every turn in which the gateway responds with a non-200 status or
a malformed body (not decodable, or lacking choices[0].message.content), an
error is surfaced, no assistant message is appended, and the user message
remains appended to the log. -/
theorem c4_gateway_failure (θ : Theme) (s : AppState) (p : String) (g : GResp)
    (hg : turnFails g) :
    chatTurn θ s p g =
      pushA (pushA (pushMsg s (userMsg p)) (.markdownA (.jstr p))) .gatewayErrorA ∧
    (chatTurn θ s p g).messages = s.messages ++ [userMsg p] := by
  have hmain : chatTurn θ s p g =
      pushA (pushA (pushMsg s (userMsg p)) (.markdownA (.jstr p))) .gatewayErrorA := by
    cases g with
    | transportError => rfl
    | httpResp status body =>
      cases body with
      | none => rfl
      | some bd =>
        rcases hg with h200 | hbody | hext
        · simp [chatTurn, h200]
        · cases hbody
        · obtain ⟨bd2, hbd, herr⟩ := hext
          cases hbd
          by_cases hs : status = 200
          · simp [chatTurn, hs, herr]
          · simp [chatTurn, hs]
  exact ⟨hmain, by rw [hmain]; rfl⟩

/-- Witness for C4 at a 401 response with an empty-object body. -/
theorem c4_gateway_failure_witness :
    chatTurn Theme.day st0 "hi" (GResp.httpResp 401 (some (.jobj []))) =
      pushA (pushA (pushMsg st0 (userMsg "hi")) (.markdownA (.jstr "hi"))) .gatewayErrorA ∧
    (chatTurn Theme.day st0 "hi" (GResp.httpResp 401 (some (.jobj [])))).messages =
      st0.messages ++ [userMsg "hi"] :=
  c4_gateway_failure Theme.day st0 "hi" (GResp.httpResp 401 (some (.jobj [])))
    (Or.inl (by decide))

/-- C7 counterexample: a whitespace-only submission is not rejected: the
single-space prompt passes the walrus guard, so the user message is appended
and the gateway is called (here failing, leaving the error display). -/
theorem c7_whitespace_counterexample :
    handleChatInput Theme.day st0 (some " ") GResp.transportError =
      pushA (pushA (pushMsg st0 (userMsg " ")) (.markdownA (.jstr " "))) .gatewayErrorA ∧
    (handleChatInput Theme.day st0 (some " ") GResp.transportError).messages =
      st0.messages ++ [userMsg " "] :=
  ⟨rfl, rfl⟩

/-- C7 (amended): only a missing or empty submission is rejected at the
boundary, with no append and no gateway call; any other submission,
whitespace-only ones included, is handled as a normal turn: the user message
is appended and the gateway is called. -/
theorem c7_empty_only_amended :
    (∀ (θ : Theme) (s : AppState) (g : GResp), handleChatInput θ s none g = s) ∧
    (∀ (θ : Theme) (s : AppState) (g : GResp), handleChatInput θ s (some "") g = s) ∧
    (∀ (θ : Theme) (s : AppState) (g : GResp) (p : String), p ≠ "" →
      handleChatInput θ s (some p) g = chatTurn θ s p g ∧
      ∃ tail, (handleChatInput θ s (some p) g).messages =
        s.messages ++ (userMsg p :: tail)) := by
  refine ⟨fun θ s g => rfl, fun θ s g => rfl, fun θ s g p hp => ?_⟩
  have heq : handleChatInput θ s (some p) g = chatTurn θ s p g := by
    simp [handleChatInput, hp]
  exact ⟨heq, by rw [heq]; exact chatTurn_messages θ s p g⟩

/-- Witness for C7 (amended) at the single-space prompt. -/
theorem c7_empty_only_amended_witness :
    handleChatInput Theme.day st0 (some " ") GResp.transportError =
      chatTurn Theme.day st0 " " GResp.transportError ∧
    ∃ tail, (handleChatInput Theme.day st0 (some " ") GResp.transportError).messages =
      st0.messages ++ (userMsg " " :: tail) :=
  c7_empty_only_amended.2.2 Theme.day st0 GResp.transportError " " (by decide)

/-- C8: in the manual canvas path, categories Rent,Food with amounts 500,300
render a bar chart with the two category/amount rows in input order; the
non-numeric amount abc yields the numeric-input error and no chart; and
whenever all amounts convert but the category and amount counts differ, the
count-mismatch validation error is shown and no chart is produced. -/
theorem c8_canvas_paths :
    (∀ s : AppState, canvasHandler s "Rent,Food" "500,300" =
      pushA s (.canvasChartA [("Rent", (500 : ℚ)), ("Food", (300 : ℚ))])) ∧
    (∀ s : AppState, canvasHandler s "Rent,Food" "500,abc" = pushA s .numericErrorA) ∧
    (∀ (s : AppState) (c a : String) (amts : List ℚ), c ≠ "" → a ≠ "" →
      parseAmounts ((pySplitComma a.toList).map pyStrip) = some amts →
      ((pySplitComma c.toList).map (fun x => String.mk (pyStrip x))).length ≠ amts.length →
      canvasHandler s c a = pushA s .countMismatchErrorA) := by
  refine ⟨fun s => rfl, fun s => rfl, ?_⟩
  intro s c a amts hc ha hpa hlen
  simp only [canvasHandler, hc, ha, false_or, or_self, if_false, hpa]
  rw [if_neg hlen]

/-- Witness for C8: two categories against one amount trigger the
count-mismatch error. -/
theorem c8_canvas_paths_witness :
    canvasHandler st0 "Rent,Food" "500" = pushA st0 .countMismatchErrorA :=
  c8_canvas_paths.2.2 st0 "Rent,Food" "500" [(500 : ℚ)] (by decide) (by decide) rfl
    (by decide)

/-- C9: rendering a chart, both from an assistant reply and from the manual
canvas path, never mutates the message log: the stored message sequence is
identical before and after. -/
theorem c9_render_no_mutation :
    (∀ (θ : Theme) (s : AppState) (text : String),
      (createVisualization θ s text).1.messages = s.messages) ∧
    (∀ (s : AppState) (c a : String), (canvasHandler s c a).messages = s.messages) := by
  refine ⟨fun θ s text => createVisualization_messages θ s text, ?_⟩
  intro s c a
  by_cases hcond : c = "" ∨ a = ""
  · simp [canvasHandler, hcond]
  · simp only [canvasHandler, hcond, if_false]
    split
    · rfl
    · split <;> rfl

end BusinessChatbot


